import Mathlib

/-!
Verification development for the PySNN learning rules (`pysnn/learning.py`).

The numeric core of the library operates on batched tensors.  We embed the
tensor operations the two learning rules use (elementwise arithmetic with
broadcasting, transposition of the last two dimensions, mean over the batch
dimension, global maximum) shallowly: a rank-3 tensor is a shape together
with a total data function, and a broadcast read of an index reduces it
modulo the corresponding dimension, which agrees with the backend's
broadcasting whenever the shapes are compatible (a dimension of size one is
read at index 0, equal dimensions are read in range).

`MSTDPET` is embedded over an arbitrary field (spike/trace arithmetic only
uses ring operations and division by the batch size), so its concrete
scenarios can be evaluated over `ℚ` by `decide`.  `FedeSTDP` uses the real
exponential, so its embedding lives over `ℝ`.

The structural behaviour of construction (argument validation in
`check_layers`, the `assert` statements of `FedeSTDP.__init__`, and the
in-place replacement of the caller's layer records) is embedded separately
over a small model of the Python values involved: dictionary keys are atoms,
tensors are opaque references, and the caller's ordered mapping lives in a
heap indexed by object address so that in-place mutation and object
identity are expressible.
-/

namespace PySNNVerify

/-- Rank-3 tensor: shape `(b, n, m)` with a total data function.  In-range
indices `i < b`, `j < n`, `k < m` carry the tensor's contents. -/
structure T3 (α : Type) where
  b : ℕ
  n : ℕ
  m : ℕ
  data : ℕ → ℕ → ℕ → α

/-- Rank-2 tensor: shape `(n, m)` with a total data function. -/
structure T2 (α : Type) where
  n : ℕ
  m : ℕ
  data : ℕ → ℕ → α

/-- Broadcast read: an index is reduced modulo the dimension, so a dimension
of size one is always read at 0, matching backend broadcasting for
compatible shapes. -/
def T3.bget {α : Type} (x : T3 α) (i j k : ℕ) : α :=
  x.data (i % x.b) (j % x.n) (k % x.m)

/-- Broadcast read for rank-2 tensors. -/
def T2.bget {α : Type} (x : T2 α) (j k : ℕ) : α :=
  x.data (j % x.n) (k % x.m)

/-- Transposition of the last two dimensions, `tensor.transpose(-2, -1)`. -/
def T3.transpose {α : Type} (x : T3 α) : T3 α :=
  ⟨x.b, x.m, x.n, fun i j k => x.data i k j⟩

/-- Elementwise product with broadcasting, `x * y` on tensors. -/
def T3.mul {α : Type} [Field α] (x y : T3 α) : T3 α :=
  ⟨max x.b y.b, max x.n y.n, max x.m y.m,
   fun i j k => x.bget i j k * y.bget i j k⟩

/-- Elementwise sum with broadcasting, `x + y` on tensors. -/
def T3.add {α : Type} [Field α] (x y : T3 α) : T3 α :=
  ⟨max x.b y.b, max x.n y.n, max x.m y.m,
   fun i j k => x.bget i j k + y.bget i j k⟩

/-- In-place `x += y`: the left operand keeps its shape and the right
operand is broadcast into it. -/
def T3.addI {α : Type} [Field α] (x y : T3 α) : T3 α :=
  ⟨x.b, x.n, x.m, fun i j k => x.data i j k + y.bget i j k⟩

/-- In-place `x -= y`. -/
def T3.subI {α : Type} [Field α] (x y : T3 α) : T3 α :=
  ⟨x.b, x.n, x.m, fun i j k => x.data i j k - y.bget i j k⟩

/-- In-place `x *= c` for a scalar `c`. -/
def T3.smul {α : Type} [Field α] (c : α) (x : T3 α) : T3 α :=
  ⟨x.b, x.n, x.m, fun i j k => c * x.data i j k⟩

/-- Cast of a boolean spike-indicator tensor to a numeric one,
`spikes.float()`. -/
def T3.float {α : Type} [Field α] (x : T3 Bool) : T3 α :=
  ⟨x.b, x.n, x.m, fun i j k => if x.data i j k then 1 else 0⟩

/-- Mean over the batch (leading) dimension, `tensor.mean(0)`: the result
drops the leading dimension. -/
def T3.mean0 {α : Type} [Field α] (x : T3 α) : T2 α :=
  ⟨x.n, x.m, fun j k => (∑ i in Finset.range x.b, x.data i j k) / (x.b : α)⟩

/-- In-place `w += y` for rank-2 tensors. -/
def T2.addB {α : Type} [Field α] (w y : T2 α) : T2 α :=
  ⟨w.n, w.m, fun j k => w.data j k + y.bget j k⟩

/-- Scalar times rank-2 tensor. -/
def T2.smul {α : Type} [Field α] (c : α) (x : T2 α) : T2 α :=
  ⟨x.n, x.m, fun j k => c * x.data j k⟩

/-- A rank-2 tensor viewed as rank 3 with a leading dimension of size one,
which is how broadcasting aligns it against a batched rank-3 tensor. -/
def T2.toT3 {α : Type} (x : T2 α) : T3 α :=
  ⟨1, x.n, x.m, fun _ j k => x.data j k⟩

/-!
MSTDPET (`pysnn/learning.py`, class `MSTDPET`).

The working record built by `MSTDPET.__init__` keeps, per layer, the
pre-synaptic spike and trace tensors of the connection, the post-synaptic
spike and trace tensors of the neuron, the connection's weight tensor, and
an owned eligibility trace `e_trace` initialised to zeros shaped like the
connection trace.
-/

/-- Per-layer working record of MSTDPET, field order as assigned in
`MSTDPET.__init__`. -/
structure MSTDPETLayer (α : Type) where
  pre_spikes : T3 Bool
  pre_trace : T3 α
  post_spikes : T3 Bool
  post_trace : T3 α
  weight : T2 α
  e_trace : T3 α

/-- Body of `MSTDPET.update_state` for one layer:
`e_trace *= e_trace_decay`,
`e_trace += (post_spikes.float() * pre_trace.transpose(-2, -1)).transpose(-2, -1)`,
`e_trace -= (pre_spikes.float().transpose(-2, -1) * post_trace).transpose(-2, -1)`. -/
def mstdpetUpdateLayer {α : Type} [Field α] (e_trace_decay : α)
    (l : MSTDPETLayer α) : MSTDPETLayer α :=
  let e1 := T3.smul e_trace_decay l.e_trace
  let e2 := T3.addI e1
    (T3.transpose (T3.mul (T3.float l.post_spikes) (T3.transpose l.pre_trace)))
  let e3 := T3.subI e2
    (T3.transpose (T3.mul (T3.transpose (T3.float l.pre_spikes)) l.post_trace))
  { l with e_trace := e3 }

/-- Body of `MSTDPET.step` for one layer:
`weight += lr * reward * e_trace.mean(0)`. -/
def mstdpetStepLayer {α : Type} [Field α] (lr reward : α)
    (l : MSTDPETLayer α) : MSTDPETLayer α :=
  { l with weight := T2.addB l.weight (T2.smul (lr * reward) (T3.mean0 l.e_trace)) }

/-- Body of `MSTDPET.reset_state` for one layer: `e_trace.fill_(0)` zeroes
the eligibility trace in place, keeping its shape. -/
def mstdpetResetLayer {α : Type} [Field α] (l : MSTDPETLayer α) : MSTDPETLayer α :=
  { l with e_trace := ⟨l.e_trace.b, l.e_trace.n, l.e_trace.m, fun _ _ _ => 0⟩ }

/-- An MSTDPET rule instance: the flattened layer records plus the
hyperparameters stored by `MSTDPET.__init__`. -/
structure MSTDPET (α : Type) where
  layers : List (MSTDPETLayer α)
  a_pre : α
  a_post : α
  lr : α
  e_trace_decay : α

/-- `MSTDPET.update_state`: applies the eligibility-trace update to every
layer. -/
def MSTDPET.update_state {α : Type} [Field α] (r : MSTDPET α) : MSTDPET α :=
  { r with layers := r.layers.map (mstdpetUpdateLayer r.e_trace_decay) }

/-- `MSTDPET.step(reward)`: applies the reward-gated weight update to every
layer. -/
def MSTDPET.step {α : Type} [Field α] (r : MSTDPET α) (reward : α) : MSTDPET α :=
  { r with layers := r.layers.map (mstdpetStepLayer r.lr reward) }

/-- `MSTDPET.reset_state`: zeroes every layer's eligibility trace. -/
def MSTDPET.reset_state {α : Type} [Field α] (r : MSTDPET α) : MSTDPET α :=
  { r with layers := r.layers.map mstdpetResetLayer }

/-- The one-layer, batch-2, single-synapse scenario of the spec, over `ℚ`:
`pre_spikes = [1, 0]`, `post_spikes = [0, 1]`, `pre_trace = [0.5, 0.5]`,
`post_trace = [0.3, 0.3]`, weight `0`, eligibility trace initially zero.
All tensors have shape `(2, 1, 1)`; the weight has shape `(1, 1)`. -/
def c1Layer : MSTDPETLayer ℚ :=
  ⟨⟨2, 1, 1, fun i _ _ => i == 0⟩,
   ⟨2, 1, 1, fun _ _ _ => 1/2⟩,
   ⟨2, 1, 1, fun i _ _ => i == 1⟩,
   ⟨2, 1, 1, fun _ _ _ => 3/10⟩,
   ⟨1, 1, fun _ _ => 0⟩,
   ⟨2, 1, 1, fun _ _ _ => 0⟩⟩

/-!
FedeSTDP (`pysnn/learning.py`, class `FedeSTDP`), numeric part.

The rule reads only the connection trace and weight.  The source reshapes
the trace with `trace.view(-1, *w.shape)`; in this model the stored trace
already carries the shape batch × weight-shape, under which that view is
the identity regrouping, so the reshape does not appear explicitly.
-/

/-- Per-layer working record of FedeSTDP: connection trace and weight. -/
structure FLayer where
  trace : T3 ℝ
  weight : T2 ℝ

/-- List of all in-range entries of a rank-3 tensor in row-major order. -/
def T3.flatten {α : Type} (x : T3 α) : List α :=
  (List.range x.b).flatMap fun i =>
    (List.range x.n).flatMap fun j =>
      (List.range x.m).map fun k => x.data i j k

/-- Global maximum of a tensor, `tensor.max()`.  For a nonempty tensor this
is the maximum of all in-range entries (the fold starts from the first
entry, which the list also contains). -/
noncomputable def T3.tmax (x : T3 ℝ) : ℝ :=
  x.flatten.foldl max (x.data 0 0 0)

/-- Body of `FedeSTDP.step` for one layer, line by line:
`norm_trace = trace / trace.max()`, `dw = w - w_init`,
`ltp = exp(-dw) * (exp(norm_trace) - a)`,
`ltd = (-exp(dw)) * (exp(1 - norm_trace) - a)`,
`weight += lr * (ltp + ltd).mean(0)`. -/
noncomputable def fedeStepLayer (lr w_init a : ℝ) (l : FLayer) : FLayer :=
  let w := l.weight
  let trace := l.trace
  let norm_trace : T3 ℝ :=
    ⟨trace.b, trace.n, trace.m, fun i j k => trace.data i j k / trace.tmax⟩
  let dw : T2 ℝ := ⟨w.n, w.m, fun j k => w.data j k - w_init⟩
  let ltp_w : T2 ℝ := ⟨w.n, w.m, fun j k => Real.exp (-(dw.data j k))⟩
  let ltp_t : T3 ℝ :=
    ⟨norm_trace.b, norm_trace.n, norm_trace.m,
     fun i j k => Real.exp (norm_trace.data i j k) - a⟩
  let ltp := T3.mul (T2.toT3 ltp_w) ltp_t
  let ltd_w : T2 ℝ := ⟨w.n, w.m, fun j k => -Real.exp (dw.data j k)⟩
  let ltd_t : T3 ℝ :=
    ⟨norm_trace.b, norm_trace.n, norm_trace.m,
     fun i j k => Real.exp (1 - norm_trace.data i j k) - a⟩
  let ltd := T3.mul (T2.toT3 ltd_w) ltd_t
  { l with weight := T2.addB w (T2.smul lr (T3.mean0 (T3.add ltp ltd))) }

/-- A FedeSTDP rule instance: flattened layer records plus the stored
hyperparameters. -/
structure FedeSTDP where
  layers : List FLayer
  lr : ℝ
  w_init : ℝ
  a : ℝ

/-- `FedeSTDP.step()`: applies the trace-normalized update to every layer. -/
noncomputable def FedeSTDP.step (r : FedeSTDP) : FedeSTDP :=
  { r with layers := r.layers.map (fedeStepLayer r.lr r.w_init r.a) }

/-- Python errors the embedded construction and validation code can raise. -/
inductive PyErr where
  | typeError
  | valueError
  | keyError
  | assertionError
  | notImplementedError
deriving DecidableEq

/-- `LearningRule.update_state` of the abstract base class:
`raise NotImplementedError`.  The raise is the first statement, so no state
is touched; the model therefore returns the error and no successor state. -/
def LearningRule.update_state {σ : Type} (s : σ) : Except PyErr σ :=
  .error .notImplementedError

/-- `LearningRule.reset_state` of the abstract base class:
`raise NotImplementedError`. -/
def LearningRule.reset_state {σ : Type} (s : σ) : Except PyErr σ :=
  .error .notImplementedError

/-- `FedeSTDP` does not override `update_state`; calls dispatch to the
inherited `LearningRule.update_state`. -/
def FedeSTDP.update_state (r : FedeSTDP) : Except PyErr FedeSTDP :=
  LearningRule.update_state r

/-- `FedeSTDP` does not override `reset_state`; calls dispatch to the
inherited `LearningRule.reset_state`. -/
def FedeSTDP.reset_state (r : FedeSTDP) : Except PyErr FedeSTDP :=
  LearningRule.reset_state r

/-- The normalization `trace / trace.max()` inside `FedeSTDP.step` is
meaningful under the backend's float semantics only when the divisor is
nonzero; a zero divisor yields non-finite (NaN/inf) entries.  This predicate
records well-definedness of that division for a layer. -/
def fedeNormWellDefined (l : FLayer) : Prop :=
  T3.tmax l.trace ≠ 0

/-!
Structural model of construction-time behaviour.

Dictionary keys are atoms (the string keys the source uses, plus integer
keys, so that the lookup `layers[0]` occurring in `check_layers`' error
message is expressible).  Tensors are opaque references; `torch.zeros_like`
produces a fresh tensor derived from its argument.  A layer collection is
either an `OrderedDict` (a key-ordered association list) or some other
Python object, which `isinstance(layers, OrderedDict)` rejects.
-/

/-- Dictionary keys appearing in the source: integer keys and the fixed
string keys of the layer schema and of the flattened working records. -/
inductive PyKey where
  | num : ℕ → PyKey
  | connection
  | neuron
  | spikes
  | trace
  | weight
  | pre_spikes
  | pre_trace
  | post_spikes
  | post_trace
  | e_trace
deriving DecidableEq

/-- Opaque tensor values: references into caller-owned storage, and fresh
tensors created by `torch.zeros_like`. -/
inductive TProxy where
  | ref : ℕ → TProxy
  | zerosLike : TProxy → TProxy
deriving DecidableEq

/-- A leaf value inside a state dict: a tensor or some other object. -/
inductive PyLeaf where
  | tensor : TProxy → PyLeaf
  | other : PyLeaf
deriving DecidableEq

/-- A value inside a layer record: the `connection`/`neuron` sub-dicts map
their keys to leaves; anything else is a leaf. -/
inductive PyNode where
  | dict : List (PyKey × PyLeaf) → PyNode
  | leaf : PyLeaf → PyNode
deriving DecidableEq

/-- A value of the top-level layers mapping: a layer record (a dict of
sub-dicts), or a non-mapping object. -/
inductive PyRecord where
  | dict : List (PyKey × PyNode) → PyRecord
  | leaf : PyLeaf → PyRecord
deriving DecidableEq

/-- The `layers` argument: an `OrderedDict` with its entries in insertion
order, or any object that is not an `OrderedDict` instance. -/
inductive LayersArg where
  | odict : List (PyKey × PyRecord) → LayersArg
  | notOdict
deriving DecidableEq

/-- First binding of a key in an association list, Python `d[k]` as an
option. -/
def plookup {β : Type} (k : PyKey) : List (PyKey × β) → Option β
  | [] => none
  | (k2, v) :: rest => if k = k2 then some v else plookup k rest

/-- Python `d[k]`: the bound value, or `KeyError`. -/
def fetch {β : Type} (k : PyKey) (d : List (PyKey × β)) : Except PyErr β :=
  match plookup k d with
  | some v => .ok v
  | none => .error .keyError

/-- `LearningRule.check_layers`, with the source's error-raising behaviour
modelled faithfully.

1. `if not isinstance(layers, OrderedDict): raise TypeError("..." + type(layers))`
   — evaluating the message itself raises `TypeError` (`str + type` is not
   supported), so a non-`OrderedDict` argument still fails with `TypeError`.
2. `if len(layers) == 0: raise ValueError(...)`.
3. `if not isinstance(list(layers.values())[0], (dict, OrderedDict)):
       raise TypeError("..." + type(layers[0]))` — evaluating the message
   first evaluates `layers[0]`, a lookup of the key `0` in the mapping,
   which raises `KeyError` unless `0` is one of the keys; when `0` is a
   key, the `str + type` concatenation raises `TypeError`. -/
def check_layers (layers : LayersArg) : Except PyErr Unit :=
  match layers with
  | .notOdict => .error .typeError
  | .odict [] => .error .valueError
  | .odict ((k0, v0) :: rest) =>
    match v0 with
    | .dict _ => .ok ()
    | .leaf _ =>
      match plookup (.num 0) ((k0, v0) :: rest) with
      | some _ => .error .typeError
      | none => .error .keyError

/-- The per-key loop of a constructor: replace every record by the result of
`f`, stopping at the first error, in iteration order. -/
def extractList (f : PyRecord → Except PyErr PyRecord) :
    List (PyKey × PyRecord) → Except PyErr (List (PyKey × PyRecord))
  | [] => .ok []
  | (k, v) :: rest =>
    match f v with
    | .error e => .error e
    | .ok v2 =>
      match extractList f rest with
      | .error e => .error e
      | .ok rest2 => .ok ((k, v2) :: rest2)

/-- The loop body of `MSTDPET.__init__`: build the flattened working record
of one layer.  Accesses happen in source order; a missing key raises
`KeyError` and subscripting a non-dict raises `TypeError`.
`e_trace` is `torch.zeros_like(layer["connection"]["trace"])`, a fresh
tensor (which requires the trace entry to be a tensor). -/
def mstdpetFlatten (r : PyRecord) : Except PyErr PyRecord :=
  match r with
  | .leaf _ => .error .typeError
  | .dict sub => do
    let connNode ← fetch .connection sub
    match connNode with
    | .leaf _ => .error .typeError
    | .dict conn => do
      let neurNode ← fetch .neuron sub
      match neurNode with
      | .leaf _ => .error .typeError
      | .dict neur => do
        let ps ← fetch .spikes conn
        let pt ← fetch .trace conn
        let pos ← fetch .spikes neur
        let nt ← fetch .trace neur
        let w ← fetch .weight conn
        match pt with
        | .other => .error .typeError
        | .tensor t =>
          .ok (.dict
            [(.pre_spikes, .leaf ps), (.pre_trace, .leaf pt),
             (.post_spikes, .leaf pos), (.post_trace, .leaf nt),
             (.weight, .leaf w), (.e_trace, .leaf (.tensor (.zerosLike t)))])

/-- The loop body of `FedeSTDP.__init__`: the working record keeps only the
connection's `trace` and `weight`. -/
def fedeFlatten (r : PyRecord) : Except PyErr PyRecord :=
  match r with
  | .leaf _ => .error .typeError
  | .dict sub => do
    let connNode ← fetch .connection sub
    match connNode with
    | .leaf _ => .error .typeError
    | .dict conn => do
      let tr ← fetch .trace conn
      let w ← fetch .weight conn
      .ok (.dict [(.trace, .leaf tr), (.weight, .leaf w)])

/-- Structural part of `MSTDPET.__init__`: validate, then replace every
record by its flattened working record. -/
def MSTDPETInitStruct (layers : LayersArg) :
    Except PyErr (List (PyKey × PyRecord)) :=
  match check_layers layers with
  | .error e => .error e
  | .ok _ =>
    match layers with
    | .odict entries => extractList mstdpetFlatten entries
    | .notOdict => .error .typeError

/-- Structural part of `FedeSTDP.__init__` after the two asserts: validate
layers, then extract the working records. -/
def FedeSTDPInitBody (layers : LayersArg) :
    Except PyErr (List (PyKey × PyRecord)) :=
  match check_layers layers with
  | .error e => .error e
  | .ok _ =>
    match layers with
    | .odict entries => extractList fedeFlatten entries
    | .notOdict => .error .typeError

/-- Structural part of `FedeSTDP.__init__`:
`assert lr > 0` and `assert (a <= 1) and (a >= 0)` run before any layer
validation or extraction; a failing assert raises `AssertionError`. -/
noncomputable def FedeSTDPInitStruct (lr w_init a : ℝ) (layers : LayersArg) :
    Except PyErr (List (PyKey × PyRecord)) :=
  if 0 < lr then
    if a ≤ 1 ∧ 0 ≤ a then FedeSTDPInitBody layers
    else .error .assertionError
  else .error .assertionError

/-- Heap of Python dict objects, indexed by object address.  Only the
top-level layers mapping is mutated in place, so only it lives here. -/
structure Heap where
  dicts : ℕ → List (PyKey × PyRecord)

/-- Overwrite the dict object at one address. -/
def heapUpdate (h : Heap) (addr : ℕ) (entries : List (PyKey × PyRecord)) : Heap :=
  ⟨fun a => if a = addr then entries else h.dicts a⟩

/-- `MSTDPET.__init__` acting on the caller's mapping object: the loop
assigns `layers[key] = new_layer` into the very dict the caller passed, and
`self.layers = layers` stores that same object, so on success the rule's
`layers` attribute is the input address and the heap is updated only
there. -/
def MSTDPETInitHeap (h : Heap) (addr : ℕ) : Except PyErr (ℕ × Heap) :=
  match MSTDPETInitStruct (.odict (h.dicts addr)) with
  | .error e => .error e
  | .ok entries => .ok (addr, heapUpdate h addr entries)

/-- `FedeSTDP.__init__` acting on the caller's mapping object. -/
noncomputable def FedeSTDPInitHeap (lr w_init a : ℝ) (h : Heap) (addr : ℕ) :
    Except PyErr (ℕ × Heap) :=
  match FedeSTDPInitStruct lr w_init a (.odict (h.dicts addr)) with
  | .error e => .error e
  | .ok entries => .ok (addr, heapUpdate h addr entries)

/-!
Claim theorems.
-/

/-- C1 (amended): a single `update_state()` call replaces the eligibility
trace by `e_trace_decay * e_trace` plus the potentiation term (post-synaptic
spike indicators cast to float, contracted with pre-synaptic trace values
over the synaptic shape, batch dimension broadcast) minus the depression
term (pre-synaptic spike indicators cast to float, contracted with
post-synaptic trace values).  Shapes follow the library convention: the
connection trace and the eligibility trace are `(b, n, m)`, neuron-side
tensors are `(b, 1, n)` and the connection spike tensor is `(b, 1, m)`.
In the one-layer, batch-2, single-synapse scenario with
`pre_spikes = [1, 0]`, `post_spikes = [0, 1]`, `pre_trace = [0.5, 0.5]`,
`post_trace = [0.3, 0.3]`, `e_trace_decay = 1` and zero initial trace, one
call yields `e_trace = [-0.3, 0.5]` (not `[-0.5, 0.3]` as the original
claim stated). -/
theorem C1_update_state_e_trace :
    (∀ (α : Type) [Field α] (decay : α) (b n m : ℕ)
      (ps pos : ℕ → ℕ → ℕ → Bool) (pt nt e : ℕ → ℕ → ℕ → α)
      (w : ℕ → ℕ → α) (i j k : ℕ), i < b → j < n → k < m →
      (mstdpetUpdateLayer decay
        ⟨⟨b, 1, m, ps⟩, ⟨b, n, m, pt⟩, ⟨b, 1, n, pos⟩, ⟨b, 1, n, nt⟩,
         ⟨n, m, w⟩, ⟨b, n, m, e⟩⟩).e_trace.data i j k
        = decay * e i j k
          + (if pos i 0 j then (1 : α) else 0) * pt i j k
          - (if ps i 0 k then (1 : α) else 0) * nt i 0 j)
    ∧ (mstdpetUpdateLayer (1 : ℚ) c1Layer).e_trace.data 0 0 0 = -(3/10)
    ∧ (mstdpetUpdateLayer (1 : ℚ) c1Layer).e_trace.data 1 0 0 = 1/2 := by
  refine ⟨?_,
    by norm_num [mstdpetUpdateLayer, c1Layer, T3.subI, T3.addI, T3.smul,
      T3.mul, T3.transpose, T3.float, T3.bget],
    by norm_num [mstdpetUpdateLayer, c1Layer, T3.subI, T3.addI, T3.smul,
      T3.mul, T3.transpose, T3.float, T3.bget]⟩
  intro α instF decay b n m ps pos pt nt e w i j k hi hj hk
  have h1m : max 1 m = m := max_eq_right (by omega)
  have hm1 : max m 1 = m := max_eq_left (by omega)
  have h1n : max 1 n = n := max_eq_right (by omega)
  simp only [mstdpetUpdateLayer, T3.subI, T3.addI, T3.smul, T3.transpose,
    T3.mul, T3.float, T3.bget, Nat.max_self, h1m, hm1, h1n, Nat.mod_one,
    Nat.mod_eq_of_lt hi, Nat.mod_eq_of_lt hj, Nat.mod_eq_of_lt hk]

/-- C1 counterexample: in the scenario of the claim the code yields
`e_trace = [-0.3, 0.5]`, so the claimed value `[-0.5, 0.3]` is false. -/
theorem C1_counterexample :
    ¬ ((mstdpetUpdateLayer (1 : ℚ) c1Layer).e_trace.data 0 0 0 = -(1/2)
       ∧ (mstdpetUpdateLayer (1 : ℚ) c1Layer).e_trace.data 1 0 0 = 3/10) := by
  intro h
  have h0 := h.1
  norm_num [mstdpetUpdateLayer, c1Layer, T3.subI, T3.addI, T3.smul,
    T3.mul, T3.transpose, T3.float, T3.bget] at h0

/-- C1 witness: the general formula of `C1_update_state_e_trace`
instantiated at the concrete batch-2, single-synapse scenario. -/
theorem C1_witness :
    ((0 : ℕ) < 2 ∧ (0 : ℕ) < 1) ∧
    (mstdpetUpdateLayer (1 : ℚ) c1Layer).e_trace.data 0 0 0
      = 1 * 0 + (if ((0 : ℕ) == 1 : Bool) then (1 : ℚ) else 0) * (1/2)
        - (if ((0 : ℕ) == 0 : Bool) then (1 : ℚ) else 0) * (3/10) :=
  ⟨⟨by decide, by decide⟩,
   C1_update_state_e_trace.1 ℚ 1 2 1 1
     (fun i _ _ => i == 0) (fun i _ _ => i == 1)
     (fun _ _ _ => 1/2) (fun _ _ _ => 3/10) (fun _ _ _ => 0)
     (fun _ _ => 0) 0 0 0 (by decide) (by decide) (by decide)⟩

/-- C3: `step(reward)` adds exactly `lr * reward * mean_over_batch(e_trace)`
to the weight tensor and changes nothing else: the eligibility trace and
all spike/trace tensors are untouched, `step(0)` leaves the weight
pointwise unchanged, and at rule level `step` maps the per-layer update
over every layer and leaves the hyperparameters unchanged. -/
theorem C3_step_reward_update :
    (∀ (α : Type) [Field α] (lr reward : α) (b n m : ℕ)
      (ps pos : ℕ → ℕ → ℕ → Bool) (pt nt e : ℕ → ℕ → ℕ → α)
      (w : ℕ → ℕ → α) (j k : ℕ), j < n → k < m →
      (mstdpetStepLayer lr reward
        ⟨⟨b, 1, m, ps⟩, ⟨b, n, m, pt⟩, ⟨b, 1, n, pos⟩, ⟨b, 1, n, nt⟩,
         ⟨n, m, w⟩, ⟨b, n, m, e⟩⟩).weight.data j k
        = w j k + lr * reward * ((∑ i in Finset.range b, e i j k) / (b : α)))
    ∧ (∀ (α : Type) [Field α] (lr reward : α) (l : MSTDPETLayer α),
        (mstdpetStepLayer lr reward l).e_trace = l.e_trace
        ∧ (mstdpetStepLayer lr reward l).pre_spikes = l.pre_spikes
        ∧ (mstdpetStepLayer lr reward l).pre_trace = l.pre_trace
        ∧ (mstdpetStepLayer lr reward l).post_spikes = l.post_spikes
        ∧ (mstdpetStepLayer lr reward l).post_trace = l.post_trace
        ∧ (mstdpetStepLayer lr reward l).weight.n = l.weight.n
        ∧ (mstdpetStepLayer lr reward l).weight.m = l.weight.m)
    ∧ (∀ (α : Type) [Field α] (lr : α) (l : MSTDPETLayer α) (j k : ℕ),
        (mstdpetStepLayer lr 0 l).weight.data j k = l.weight.data j k)
    ∧ (∀ (α : Type) [Field α] (r : MSTDPET α) (reward : α) (i : ℕ),
        (MSTDPET.step r reward).layers[i]?
          = (r.layers[i]?).map (mstdpetStepLayer r.lr reward)
        ∧ (MSTDPET.step r reward).a_pre = r.a_pre
        ∧ (MSTDPET.step r reward).a_post = r.a_post
        ∧ (MSTDPET.step r reward).lr = r.lr
        ∧ (MSTDPET.step r reward).e_trace_decay = r.e_trace_decay) := by
  refine ⟨?_, ?_, ?_, ?_⟩
  · intro α instF lr reward b n m ps pos pt nt e w j k hj hk
    simp only [mstdpetStepLayer, T2.addB, T2.smul, T2.bget, T3.mean0,
      Nat.mod_eq_of_lt hj, Nat.mod_eq_of_lt hk, mul_assoc]
  · intro α instF lr reward l
    exact ⟨rfl, rfl, rfl, rfl, rfl, rfl, rfl⟩
  · intro α instF lr l j k
    simp [mstdpetStepLayer, T2.addB, T2.smul, T2.bget]
  · intro α instF r reward i
    exact ⟨List.getElem?_map (mstdpetStepLayer r.lr reward) r.layers i,
      rfl, rfl, rfl, rfl⟩

/-- C3 witness: the per-layer formula of `C3_step_reward_update`
instantiated at the scenario layer after one update (eligibility trace
`[-0.3, 0.5]`), with `lr = 0.01` and `reward = 2`. -/
theorem C3_witness :
    ((0 : ℕ) < 1 ∧ (0 : ℕ) < 1) ∧
    (mstdpetStepLayer (1/100 : ℚ) 2
      ⟨⟨2, 1, 1, fun i _ _ => i == 0⟩, ⟨2, 1, 1, fun _ _ _ => 1/2⟩,
       ⟨2, 1, 1, fun i _ _ => i == 1⟩, ⟨2, 1, 1, fun _ _ _ => 3/10⟩,
       ⟨1, 1, fun _ _ => 0⟩,
       ⟨2, 1, 1, fun i _ _ => if i = 0 then -(3/10) else 1/2⟩⟩).weight.data 0 0
      = 0 + (1/100) * 2 *
          ((∑ i in Finset.range 2,
            (if i = 0 then -(3/10 : ℚ) else 1/2)) / (2 : ℚ)) :=
  ⟨⟨by decide, by decide⟩,
   C3_step_reward_update.1 ℚ (1/100) 2 2 1 1
     (fun i _ _ => i == 0) (fun i _ _ => i == 1)
     (fun _ _ _ => 1/2) (fun _ _ _ => 3/10)
     (fun i _ _ => if i = 0 then -(3/10) else 1/2)
     (fun _ _ => 0) 0 0 (by decide) (by decide)⟩

/-- C7: `reset_state()` replaces every layer's eligibility trace by the zero
tensor of its declared shape and leaves all other per-layer tensors and all
hyperparameters unchanged. -/
theorem C7_reset_state_zeroes_e_trace :
    ∀ (α : Type) [Field α] (r : MSTDPET α) (i : ℕ),
      (MSTDPET.reset_state r).layers[i]?
        = (r.layers[i]?).map (fun l =>
            ⟨l.pre_spikes, l.pre_trace, l.post_spikes, l.post_trace, l.weight,
             ⟨l.e_trace.b, l.e_trace.n, l.e_trace.m, fun _ _ _ => 0⟩⟩)
      ∧ (MSTDPET.reset_state r).a_pre = r.a_pre
      ∧ (MSTDPET.reset_state r).a_post = r.a_post
      ∧ (MSTDPET.reset_state r).lr = r.lr
      ∧ (MSTDPET.reset_state r).e_trace_decay = r.e_trace_decay := by
  intro α instF r i
  exact ⟨List.getElem?_map mstdpetResetLayer r.layers i, rfl, rfl, rfl, rfl⟩

/-- Folding `max` commutes with multiplication by a nonnegative scalar. -/
theorem foldl_max_mul_left (c : ℝ) (hc : 0 ≤ c) :
    ∀ (l : List ℝ) (x : ℝ),
      (l.map fun y => c * y).foldl max (c * x) = c * l.foldl max x := by
  intro l
  induction l with
  | nil => intro x; simp
  | cons a t ih =>
    intro x
    simp only [List.map_cons, List.foldl_cons]
    rw [← mul_max_of_nonneg x a hc]
    exact ih (max x a)

/-- Flattening a scalar multiple of a tensor scales every listed entry. -/
theorem flatten_scale (c : ℝ) (b n m : ℕ) (t : ℕ → ℕ → ℕ → ℝ) :
    (⟨b, n, m, fun i j k => c * t i j k⟩ : T3 ℝ).flatten
      = ((⟨b, n, m, t⟩ : T3 ℝ).flatten).map fun y => c * y := by
  simp [T3.flatten, List.map_flatMap, List.map_map, Function.comp_def]

/-- The global maximum commutes with multiplication by a nonnegative
scalar. -/
theorem tmax_scale (c : ℝ) (hc : 0 ≤ c) (b n m : ℕ) (t : ℕ → ℕ → ℕ → ℝ) :
    T3.tmax ⟨b, n, m, fun i j k => c * t i j k⟩
      = c * T3.tmax ⟨b, n, m, t⟩ := by
  unfold T3.tmax
  rw [flatten_scale c b n m t]
  exact foldl_max_mul_left c hc ((⟨b, n, m, t⟩ : T3 ℝ).flatten) (t 0 0 0)

/-- Folding `max` from zero over a list of zeroes yields zero. -/
theorem foldl_max_zeroes :
    ∀ (ys : List ℝ), (∀ y ∈ ys, y = 0) → ys.foldl max (0 : ℝ) = 0 := by
  intro ys
  induction ys with
  | nil => intro _; rfl
  | cons a t ih =>
    intro h
    have ha : a = 0 := h a (List.mem_cons_self a t)
    rw [List.foldl_cons, ha, max_self]
    exact ih fun y hy => h y (List.mem_cons_of_mem a hy)

/-- C2: `FedeSTDP.step()` adds to the weight, in place, exactly
`lr * mean_over_batch(exp(-(w - w_init)) * (exp(norm_trace) - a)
+ (-exp(w - w_init)) * (exp(1 - norm_trace) - a))`, where `norm_trace`
is the trace aligned with the weight shape and divided by the global
maximum of the whole trace tensor.  In the scenario `w_init = 0.5`,
`weight = 0.5`, `a = 0.5`, `lr = 0.1`, single-element trace `[1.0]`, the
new weight is exactly `0.5 + (exp 1 - 1)/10`, which is within `10⁻³` of
`0.6718`. -/
theorem C2_fede_step_formula :
    (∀ (lr w_init a : ℝ) (b n m : ℕ) (t : ℕ → ℕ → ℕ → ℝ) (w : ℕ → ℕ → ℝ)
      (j k : ℕ), 0 < b → j < n → k < m →
      (fedeStepLayer lr w_init a ⟨⟨b, n, m, t⟩, ⟨n, m, w⟩⟩).weight.data j k
        = w j k + lr * ((∑ i in Finset.range b,
            (Real.exp (-(w j k - w_init))
               * (Real.exp (t i j k / T3.tmax ⟨b, n, m, t⟩) - a)
             + (-Real.exp (w j k - w_init))
               * (Real.exp (1 - t i j k / T3.tmax ⟨b, n, m, t⟩) - a))) / (b : ℝ)))
    ∧ (fedeStepLayer (1/10) (1/2) (1/2)
        ⟨⟨1, 1, 1, fun _ _ _ => 1⟩, ⟨1, 1, fun _ _ => 1/2⟩⟩).weight.data 0 0
        = 1/2 + (Real.exp 1 - 1)/10
    ∧ |(fedeStepLayer (1/10) (1/2) (1/2)
        ⟨⟨1, 1, 1, fun _ _ _ => 1⟩, ⟨1, 1, fun _ _ => 1/2⟩⟩).weight.data 0 0
        - 0.6718| < 1/1000 := by
  have hgen : ∀ (lr w_init a : ℝ) (b n m : ℕ) (t : ℕ → ℕ → ℕ → ℝ)
      (w : ℕ → ℕ → ℝ) (j k : ℕ), 0 < b → j < n → k < m →
      (fedeStepLayer lr w_init a ⟨⟨b, n, m, t⟩, ⟨n, m, w⟩⟩).weight.data j k
        = w j k + lr * ((∑ i in Finset.range b,
            (Real.exp (-(w j k - w_init))
               * (Real.exp (t i j k / T3.tmax ⟨b, n, m, t⟩) - a)
             + (-Real.exp (w j k - w_init))
               * (Real.exp (1 - t i j k / T3.tmax ⟨b, n, m, t⟩) - a))) / (b : ℝ)) := by
    intro lr w_init a b n m t w j k hb hj hk
    have h1b : max 1 b = b := max_eq_right (by omega)
    have hbb : ∀ x : ℕ, x % b % b = x % b := fun x => Nat.mod_mod_of_dvd x dvd_rfl
    simp only [fedeStepLayer, T2.addB, T2.smul, T2.bget, T3.mean0, T3.add,
      T3.mul, T2.toT3, T3.bget, Nat.max_self, h1b, hbb, Nat.mod_one,
      Nat.mod_eq_of_lt hj, Nat.mod_eq_of_lt hk]
    congr 1
    congr 1
    congr 1
    exact Finset.sum_congr rfl fun i hi => by
      rw [Nat.mod_eq_of_lt (Finset.mem_range.mp hi)]
  have hmax1 : T3.tmax ⟨1, 1, 1, fun _ _ _ => (1 : ℝ)⟩ = 1 := by
    simp [T3.tmax, T3.flatten, List.range_succ, List.range_zero,
      List.flatMap_cons, List.flatMap_nil, List.foldl]
  have hval : (fedeStepLayer (1/10) (1/2) (1/2)
      ⟨⟨1, 1, 1, fun _ _ _ => 1⟩, ⟨1, 1, fun _ _ => 1/2⟩⟩).weight.data 0 0
      = 1/2 + (Real.exp 1 - 1)/10 := by
    have h := hgen (1/10) (1/2) (1/2) 1 1 1 (fun _ _ _ => 1) (fun _ _ => 1/2)
      0 0 (by omega) (by omega) (by omega)
    rw [h, hmax1]
    rw [Finset.sum_range_one]
    norm_num [Real.exp_zero]
    ring
  refine ⟨hgen, hval, ?_⟩
  rw [hval, abs_lt]
  constructor
  · nlinarith [Real.exp_one_gt_d9]
  · nlinarith [Real.exp_one_lt_d9]

/-- C2 witness: the general formula of `C2_fede_step_formula` at the
single-element scenario layer. -/
theorem C2_witness :
    ((0 : ℕ) < 1) ∧
    (fedeStepLayer (1/10) (1/2) (1/2)
      ⟨⟨1, 1, 1, fun _ _ _ => 1⟩, ⟨1, 1, fun _ _ => 1/2⟩⟩).weight.data 0 0
      = (1/2 : ℝ) + (1/10) * ((∑ i in Finset.range 1,
          (Real.exp (-((1:ℝ)/2 - 1/2))
             * (Real.exp ((1:ℝ) / T3.tmax ⟨1, 1, 1, fun _ _ _ => (1:ℝ)⟩) - 1/2)
           + (-Real.exp ((1:ℝ)/2 - 1/2))
             * (Real.exp (1 - (1:ℝ) / T3.tmax ⟨1, 1, 1, fun _ _ _ => (1:ℝ)⟩) - 1/2))) / ((1 : ℕ) : ℝ)) :=
  ⟨by omega,
   C2_fede_step_formula.1 (1/10) (1/2) (1/2) 1 1 1 (fun _ _ _ => 1)
     (fun _ _ => 1/2) 0 0 (by omega) (by omega) (by omega)⟩

/-- C6: multiplying a layer's entire trace tensor by a positive constant
before `step()` produces exactly the same weight update — the
normalization by the global maximum cancels the scale (the exception about
ties in the claim never materialises: the divisor is the maximum value,
which scales by the same constant regardless of which element attains
it). -/
theorem C6_fede_scale_invariance :
    ∀ (lr w_init a c : ℝ) (b n m : ℕ) (t : ℕ → ℕ → ℕ → ℝ) (wt : T2 ℝ),
      0 < c → ∀ (j k : ℕ),
      (fedeStepLayer lr w_init a
        ⟨⟨b, n, m, fun i j2 k2 => c * t i j2 k2⟩, wt⟩).weight.data j k
        = (fedeStepLayer lr w_init a ⟨⟨b, n, m, t⟩, wt⟩).weight.data j k := by
  intro lr w_init a c b n m t wt hc j k
  have hnorm : ∀ x y z : ℕ,
      c * t x y z / T3.tmax ⟨b, n, m, fun i j2 k2 => c * t i j2 k2⟩
        = t x y z / T3.tmax ⟨b, n, m, t⟩ := by
    intro x y z
    rw [tmax_scale c (le_of_lt hc) b n m t]
    exact mul_div_mul_left (t x y z) (T3.tmax ⟨b, n, m, t⟩) (ne_of_gt hc)
  simp only [fedeStepLayer, T2.addB, T2.smul, T2.bget, T3.mean0, T3.add,
    T3.mul, T2.toT3, T3.bget, hnorm]

/-- C6 witness: scale invariance at a concrete one-element layer with
`c = 2`. -/
theorem C6_witness :
    (0 : ℝ) < 2 ∧
    (fedeStepLayer 1 0 (1/2)
      ⟨⟨1, 1, 1, fun i j2 k2 => 2 * (fun _ _ _ => (1:ℝ)) i j2 k2⟩,
       ⟨1, 1, fun _ _ => 0⟩⟩).weight.data 0 0
      = (fedeStepLayer 1 0 (1/2)
          ⟨⟨1, 1, 1, fun _ _ _ => (1:ℝ)⟩, ⟨1, 1, fun _ _ => 0⟩⟩).weight.data 0 0 :=
  ⟨by norm_num,
   C6_fede_scale_invariance 1 0 (1/2) 2 1 1 1 (fun _ _ _ => 1)
     ⟨1, 1, fun _ _ => 0⟩ (by norm_num) 0 0⟩

/-- C8: on a layer whose trace is entirely zero, the normalization divisor
`trace.max()` used by `FedeSTDP.step` is exactly zero, so the unguarded
division `trace / trace.max()` is a division by zero (under the backend's
float semantics this yields non-finite entries; `step` contains no
handling for this case). -/
theorem C8_zero_trace_divisor :
    ∀ (l : FLayer), (∀ i j k, l.trace.data i j k = 0) →
      T3.tmax l.trace = 0 ∧ ¬ fedeNormWellDefined l := by
  intro l h
  obtain ⟨⟨b, n, m, d⟩, w⟩ := l
  have hd : d = fun _ _ _ => 0 := by
    funext x y z
    exact h x y z
  subst hd
  have hmax : T3.tmax ⟨b, n, m, fun _ _ _ => (0 : ℝ)⟩ = 0 := by
    unfold T3.tmax
    refine foldl_max_zeroes _ ?_
    intro y hy
    simp [T3.flatten] at hy
    tauto
  exact ⟨hmax, by simp [fedeNormWellDefined, hmax]⟩

/-- C8 witness: the all-zero one-element layer. -/
theorem C8_witness :
    (∀ i j k : ℕ,
      (FLayer.mk ⟨1, 1, 1, fun _ _ _ => (0:ℝ)⟩ ⟨1, 1, fun _ _ => 0⟩).trace.data i j k = 0)
    ∧ T3.tmax (FLayer.mk ⟨1, 1, 1, fun _ _ _ => (0:ℝ)⟩ ⟨1, 1, fun _ _ => 0⟩).trace = 0
    ∧ ¬ fedeNormWellDefined (FLayer.mk ⟨1, 1, 1, fun _ _ _ => (0:ℝ)⟩ ⟨1, 1, fun _ _ => 0⟩) :=
  ⟨fun _ _ _ => rfl,
   (C8_zero_trace_divisor _ (fun _ _ _ => rfl)).1,
   (C8_zero_trace_divisor _ (fun _ _ _ => rfl)).2⟩

/-- Concrete connection state dict used in construction scenarios. -/
def c9Conn : List (PyKey × PyLeaf) :=
  [(.spikes, .tensor (.ref 1)), (.trace, .tensor (.ref 2)),
   (.weight, .tensor (.ref 3))]

/-- Concrete neuron state dict used in construction scenarios. -/
def c9Neur : List (PyKey × PyLeaf) :=
  [(.spikes, .tensor (.ref 4)), (.trace, .tensor (.ref 5))]

/-- A well-formed layer record. -/
def c9Record : PyRecord :=
  .dict [(.connection, .dict c9Conn), (.neuron, .dict c9Neur)]

/-- A one-layer ordered mapping. -/
def c9Entries : List (PyKey × PyRecord) := [(.num 1, c9Record)]

/-- A heap whose every address holds the one-layer mapping. -/
def c9Heap : Heap := ⟨fun _ => c9Entries⟩

/-- The flattened MSTDPET working record of `c9Entries`. -/
def c9MOut : List (PyKey × PyRecord) :=
  [(.num 1, .dict
    [(.pre_spikes, .leaf (.tensor (.ref 1))),
     (.pre_trace, .leaf (.tensor (.ref 2))),
     (.post_spikes, .leaf (.tensor (.ref 4))),
     (.post_trace, .leaf (.tensor (.ref 5))),
     (.weight, .leaf (.tensor (.ref 3))),
     (.e_trace, .leaf (.tensor (.zerosLike (.ref 2))))])]

/-- The flattened FedeSTDP working record of `c9Entries`. -/
def c9FOut : List (PyKey × PyRecord) :=
  [(.num 1, .dict
    [(.trace, .leaf (.tensor (.ref 2))),
     (.weight, .leaf (.tensor (.ref 3)))])]

/-- A successful extraction loop preserves length and keys and flattens
every record in place. -/
theorem extractList_ok (f : PyRecord → Except PyErr PyRecord) :
    ∀ (l out : List (PyKey × PyRecord)),
      extractList f l = .ok out →
      out.length = l.length
      ∧ ∀ (i : ℕ) (k : PyKey) (v : PyRecord), l[i]? = some (k, v) →
          ∃ v2, f v = .ok v2 ∧ out[i]? = some (k, v2) := by
  intro l
  induction l with
  | nil =>
    intro out h
    simp only [extractList] at h
    cases h
    exact ⟨rfl, by intro i k v hi; simp at hi⟩
  | cons p rest ih =>
    intro out h
    obtain ⟨k0, v0⟩ := p
    simp only [extractList] at h
    cases hf : f v0 with
    | error e => rw [hf] at h; exact absurd h (by simp)
    | ok v2 =>
      rw [hf] at h
      cases hr : extractList f rest with
      | error e => rw [hr] at h; exact absurd h (by simp)
      | ok rest2 =>
        rw [hr] at h
        cases h
        obtain ⟨hlen, hget⟩ := ih rest2 hr
        refine ⟨by simp [hlen], ?_⟩
        intro i k v hi
        cases i with
        | zero =>
          simp only [List.getElem?_cons_zero, Option.some.injEq,
            Prod.mk.injEq] at hi
          obtain ⟨hk, hv⟩ := hi
          subst hk; subst hv
          exact ⟨v2, hf, by simp⟩
        | succ i2 =>
          simp only [List.getElem?_cons_succ] at hi
          obtain ⟨v3, hfv, hout⟩ := hget i2 k v hi
          exact ⟨v3, hfv, by simpa using hout⟩

/-- C4: evaluation of `check_layers` on the claim's input classes.  A
non-`OrderedDict` argument fails with `TypeError` and an empty mapping
fails with `ValueError`, as claimed, and any mapping whose first value is a
dict passes; but a mapping whose first value is not a mapping raises
`KeyError`, not the claimed `TypeError`, because the error message of the
intended `TypeError` evaluates `layers[0]` (a lookup of the key `0`), which
fails first whenever `0` is not a key; only when `0` is a key does the call
fail with a `TypeError` (raised by the `str + type` concatenation in the
message, not by the `raise` itself). -/
theorem C4_check_layers_behavior :
    check_layers .notOdict = .error .typeError
    ∧ check_layers (.odict []) = .error .valueError
    ∧ check_layers (.odict [(.num 1, .leaf .other)]) = .error .keyError
    ∧ check_layers (.odict [(.num 0, .leaf .other)]) = .error .typeError
    ∧ (∀ (k : PyKey) (d : List (PyKey × PyNode))
        (rest : List (PyKey × PyRecord)),
        check_layers (.odict ((k, .dict d) :: rest)) = Except.ok ()) := by
  exact ⟨rfl, rfl, rfl, rfl, fun k d rest => rfl⟩

/-- C5: the two `assert` statements of `FedeSTDP.__init__` run before any
layer validation or extraction: for a non-positive learning rate or an
asymmetry parameter outside `[0, 1]` the constructor fails with
`AssertionError` whatever the layers argument is (it is never inspected),
and for valid hyperparameters the assertions pass and construction
proceeds to layer validation and extraction. -/
theorem C5_fede_asserts_before_layers :
    ∀ (lr w_init a : ℝ) (layers : LayersArg),
      ((lr ≤ 0 ∨ a < 0 ∨ 1 < a) →
        FedeSTDPInitStruct lr w_init a layers = .error .assertionError)
      ∧ (0 < lr → 0 ≤ a → a ≤ 1 →
        FedeSTDPInitStruct lr w_init a layers = FedeSTDPInitBody layers) := by
  intro lr w_init a layers
  constructor
  · intro h
    unfold FedeSTDPInitStruct
    split_ifs with hlr ha
    · rcases h with h | h | h
      · linarith
      · linarith [ha.2]
      · linarith [ha.1]
    · rfl
    · rfl
  · intro h1 h2 h3
    unfold FedeSTDPInitStruct
    rw [if_pos h1, if_pos ⟨h3, h2⟩]

/-- C5 witness: valid hyperparameters pass the asserts; a negative learning
rate fails them, independently of the (here malformed) layers argument. -/
theorem C5_witness :
    ((0 : ℝ) < 1 ∧ (0 : ℝ) ≤ 1/2 ∧ (1/2 : ℝ) ≤ 1 ∧ (-1 : ℝ) ≤ 0)
    ∧ FedeSTDPInitStruct 1 0 (1/2) .notOdict = FedeSTDPInitBody .notOdict
    ∧ FedeSTDPInitStruct (-1) 0 (1/2) .notOdict = .error .assertionError :=
  ⟨⟨by norm_num, by norm_num, by norm_num, by norm_num⟩,
   (C5_fede_asserts_before_layers 1 0 (1/2) .notOdict).2
     (by norm_num) (by norm_num) (by norm_num),
   (C5_fede_asserts_before_layers (-1) 0 (1/2) .notOdict).1
     (Or.inl (by norm_num))⟩

/-- C9: construction mutates the caller's mapping in place.  On success,
`MSTDPET.__init__` (and likewise `FedeSTDP.__init__`) returns the very
address the caller passed as its `layers` attribute, the heap is changed
only at that address, and the dict there now binds every original key, in
order, to the flattened working record extracted from the original nested
record. -/
theorem C9_init_mutates_in_place :
    (∀ (h : Heap) (addr : ℕ) (out : List (PyKey × PyRecord)),
      MSTDPETInitStruct (.odict (h.dicts addr)) = .ok out →
        MSTDPETInitHeap h addr = .ok (addr, heapUpdate h addr out)
        ∧ (heapUpdate h addr out).dicts addr = out
        ∧ (∀ a2 : ℕ, a2 ≠ addr → (heapUpdate h addr out).dicts a2 = h.dicts a2)
        ∧ out.length = (h.dicts addr).length
        ∧ (∀ (i : ℕ) (k : PyKey) (v : PyRecord),
            (h.dicts addr)[i]? = some (k, v) →
            ∃ v2, mstdpetFlatten v = .ok v2 ∧ out[i]? = some (k, v2)))
    ∧ (∀ (lr w_init a : ℝ) (h : Heap) (addr : ℕ)
        (out : List (PyKey × PyRecord)),
      FedeSTDPInitStruct lr w_init a (.odict (h.dicts addr)) = .ok out →
        FedeSTDPInitHeap lr w_init a h addr = .ok (addr, heapUpdate h addr out)
        ∧ (heapUpdate h addr out).dicts addr = out
        ∧ (∀ a2 : ℕ, a2 ≠ addr → (heapUpdate h addr out).dicts a2 = h.dicts a2)
        ∧ out.length = (h.dicts addr).length
        ∧ (∀ (i : ℕ) (k : PyKey) (v : PyRecord),
            (h.dicts addr)[i]? = some (k, v) →
            ∃ v2, fedeFlatten v = .ok v2 ∧ out[i]? = some (k, v2))) := by
  constructor
  · intro h addr out hok
    have hext : extractList mstdpetFlatten (h.dicts addr) = .ok out := by
      have h2 := hok
      simp only [MSTDPETInitStruct] at h2
      cases hc : check_layers (.odict (h.dicts addr)) with
      | error e => rw [hc] at h2; exact absurd h2 (by simp)
      | ok u => rw [hc] at h2; exact h2
    obtain ⟨hlen, hget⟩ := extractList_ok mstdpetFlatten (h.dicts addr) out hext
    refine ⟨by simp [MSTDPETInitHeap, hok], by simp [heapUpdate], ?_, hlen, hget⟩
    intro a2 ha2
    simp [heapUpdate, ha2]
  · intro lr w_init a h addr out hok
    have hbody : FedeSTDPInitBody (.odict (h.dicts addr)) = .ok out := by
      have h2 := hok
      unfold FedeSTDPInitStruct at h2
      split_ifs at h2
      · exact h2
    have hext : extractList fedeFlatten (h.dicts addr) = .ok out := by
      have h2 := hbody
      simp only [FedeSTDPInitBody] at h2
      cases hc : check_layers (.odict (h.dicts addr)) with
      | error e => rw [hc] at h2; exact absurd h2 (by simp)
      | ok u => rw [hc] at h2; exact h2
    obtain ⟨hlen, hget⟩ := extractList_ok fedeFlatten (h.dicts addr) out hext
    refine ⟨by simp [FedeSTDPInitHeap, hok], by simp [heapUpdate], ?_, hlen, hget⟩
    intro a2 ha2
    simp [heapUpdate, ha2]

/-- C9 witness: both constructors at a concrete one-layer heap: the
returned `layers` attribute is the input address and the heap holds the
flattened records there. -/
theorem C9_witness :
    (MSTDPETInitStruct (.odict (c9Heap.dicts 0)) = .ok c9MOut
      ∧ MSTDPETInitHeap c9Heap 0 = .ok (0, heapUpdate c9Heap 0 c9MOut))
    ∧ (FedeSTDPInitStruct 1 0 (1/2) (.odict (c9Heap.dicts 0)) = .ok c9FOut
      ∧ FedeSTDPInitHeap 1 0 (1/2) c9Heap 0 = .ok (0, heapUpdate c9Heap 0 c9FOut)) := by
  have h1 : MSTDPETInitStruct (.odict (c9Heap.dicts 0)) = .ok c9MOut := rfl
  have h2 : FedeSTDPInitStruct 1 0 (1/2) (.odict (c9Heap.dicts 0)) = .ok c9FOut := by
    unfold FedeSTDPInitStruct
    rw [if_pos (by norm_num : (0:ℝ) < 1),
      if_pos (⟨by norm_num, by norm_num⟩ : (1/2 : ℝ) ≤ 1 ∧ (0:ℝ) ≤ 1/2)]
    rfl
  exact ⟨⟨h1, (C9_init_mutates_in_place.1 c9Heap 0 c9MOut h1).1⟩,
    ⟨h2, (C9_init_mutates_in_place.2 1 0 (1/2) c9Heap 0 c9FOut h2).1⟩⟩

/-- C10: `FedeSTDP` overrides neither `update_state` nor `reset_state`, so
both dispatch to the abstract base implementations and raise
`NotImplementedError` immediately: no successor state is ever produced, so
no weight or trace tensor is changed. -/
theorem C10_fede_abstract_methods :
    ∀ (r : FedeSTDP),
      FedeSTDP.update_state r = .error .notImplementedError
      ∧ FedeSTDP.reset_state r = .error .notImplementedError
      ∧ (∀ r2 : FedeSTDP, FedeSTDP.update_state r ≠ Except.ok r2)
      ∧ (∀ r2 : FedeSTDP, FedeSTDP.reset_state r ≠ Except.ok r2) :=
  fun r =>
    ⟨rfl, rfl,
     fun r2 hcontra => by
       simp [FedeSTDP.update_state, LearningRule.update_state] at hcontra,
     fun r2 hcontra => by
       simp [FedeSTDP.reset_state, LearningRule.reset_state] at hcontra⟩

/-- C7 witness: `reset_state` on a concrete one-layer rule over `ℚ`. -/
theorem C7_witness :
    (MSTDPET.reset_state (⟨[c1Layer], 1, 1, 1/100, 1⟩ : MSTDPET ℚ)).layers[0]?
      = ((⟨[c1Layer], 1, 1, 1/100, 1⟩ : MSTDPET ℚ).layers[0]?).map (fun l =>
          ⟨l.pre_spikes, l.pre_trace, l.post_spikes, l.post_trace, l.weight,
           ⟨l.e_trace.b, l.e_trace.n, l.e_trace.m, fun _ _ _ => 0⟩⟩) :=
  (C7_reset_state_zeroes_e_trace ℚ ⟨[c1Layer], 1, 1, 1/100, 1⟩ 0).1

/-- C10 witness: the inherited abstract methods on a concrete rule. -/
theorem C10_witness :
    FedeSTDP.update_state ⟨[], 1, 0, 1/2⟩ = .error .notImplementedError
    ∧ FedeSTDP.reset_state ⟨[], 1, 0, 1/2⟩ = .error .notImplementedError :=
  ⟨(C10_fede_abstract_methods ⟨[], 1, 0, 1/2⟩).1,
   (C10_fede_abstract_methods ⟨[], 1, 0, 1/2⟩).2.1⟩

end PySNNVerify
